import Mathlib

/-!
Verification of the mcp-client repository (src/call_forecast.py) against its
specification.  The Python functions are shallowly embedded as Lean
definitions: the regex-and-float coordinate extraction, the substring tool
selector, the URI-scheme check of create_session, and the session/flow
orchestration (modelled as explicit event traces over an abstract server
behavior, since the network is an external collaborator).
-/

namespace McpClient

instance {ε α : Type} [DecidableEq ε] [DecidableEq α] : DecidableEq (Except ε α) :=
  fun a b =>
    match a, b with
    | .ok x, .ok y => decidable_of_iff (x = y) (by simp)
    | .error e, .error f => decidable_of_iff (e = f) (by simp)
    | .ok _, .error _ => isFalse (by simp)
    | .error _, .ok _ => isFalse (by simp)

/-! ### Python string containment (`sub in hay`) -/

/-- Python's `sub in hay` substring test, on character lists. -/
def listContains (sub : List Char) : List Char → Bool
  | [] => sub.isEmpty
  | c :: tl => sub.isPrefixOf (c :: tl) || listContains sub tl

/-- Python's `sub in hay` on strings, as used by `"forward_geocode" in t.name`. -/
def pyIn (sub hay : String) : Bool :=
  listContains sub.toList hay.toList

/-! ### Tool selector

The selection loop of `get_coordinates` (lines 52-56) and `get_forecast`
(lines 98-102): scan the server-reported tool list in order, return the first
name containing the required substring, `none` if no name contains it. -/

/-- The tool-selection loop: first name (in list order) containing `required`. -/
def findToolName (required : String) : List String → Option String
  | [] => none
  | t :: ts => if pyIn required t then some t else findToolName required ts

/-! ### The regex `lat=([-\d.]+), lon=([-\d.]+)`

`re.search` with this fixed pattern.  The character class is `[-\d.]`.  Both
groups are greedy; since the literal following group 1 begins with `','`,
which is not in the class, greedy matching with backtracking coincides with
taking the maximal run of class characters: shortening the run would leave a
class character where `','` is required.  Group 2 is at the end of the
pattern, so it is simply the maximal run.  `re.search` returns the match at
the leftmost starting position. -/

/-- Characters of the regex character class `[-\d.]`. -/
def isClassChar (c : Char) : Bool :=
  c == '-' || c.isDigit || c == '.'

/-- Attempt to match `lat=([-\d.]+), lon=([-\d.]+)` at the head of `cs`,
returning the two captured groups. -/
def matchHere (cs : List Char) : Option (List Char × List Char) :=
  if "lat=".toList.isPrefixOf cs then
    let r1 := cs.drop 4
    let g1 := r1.takeWhile isClassChar
    if g1.isEmpty then none
    else
      let r2 := r1.dropWhile isClassChar
      if ", lon=".toList.isPrefixOf r2 then
        let g2 := (r2.drop 6).takeWhile isClassChar
        if g2.isEmpty then none else some (g1, g2)
      else none
  else none

/-- `re.search`: the match at the leftmost position where `matchHere` succeeds. -/
def search : List Char → Option (List Char × List Char)
  | [] => none
  | c :: tl =>
    match matchHere (c :: tl) with
    | some r => some r
    | none => search tl

/-! ### Python `float()` on the captured groups

The groups consist only of `'-'`, digits and `'.'`.  On such strings,
Python's `float()` accepts an optional leading minus followed by digits with
at most one dot and at least one digit, and rejects everything else
(`float(".")`, `float("-")`, `float("1.2.3")`, `float("1-2")` raise
ValueError).  The accepted value is an exact decimal; we represent it exactly
as an integer mantissa with a decimal exponent (value `num / 10 ^ exp`),
which is faithful here because every comparison in the program is between
values parsed from identical decimal strings. -/

/-- Exact decimal value `num / 10 ^ exp`, the model of the parsed float. -/
structure Dec where
  num : Int
  exp : Nat
  deriving DecidableEq, Repr

/-- Numeric value of a digit string (most significant first). -/
def digitsVal (ds : List Char) : Nat :=
  ds.foldl (fun a c => 10 * a + (c.toNat - 48)) 0

/-- `float()` on an unsigned string over digits and `'.'`:
`digits+ | digits+ "." digits* | digits* "." digits+`. -/
def parseUnsigned (cs : List Char) : Option Dec :=
  let ip := cs.takeWhile Char.isDigit
  match cs.dropWhile Char.isDigit with
  | [] => if ip.isEmpty then none else some ⟨digitsVal ip, 0⟩
  | '.' :: frac =>
    if frac.all Char.isDigit && !(ip.isEmpty && frac.isEmpty) then
      some ⟨digitsVal (ip ++ frac), frac.length⟩
    else none
  | _ => none

/-- `float()` on a captured group (a string over `'-'`, digits, `'.'`):
`none` models the ValueError raise. -/
def parseFloat (cs : List Char) : Option Dec :=
  match cs with
  | '-' :: rest => (parseUnsigned rest).map fun d => ⟨-d.num, d.exp⟩
  | _ => parseUnsigned cs

/-! ### Coordinate extraction (get_coordinates, lines 71-79)

`re.search(...)`; on no match, `RuntimeError(f"Could not parse coordinates
from response: {text}")`; otherwise `float(match.group(1))` then
`float(match.group(2))`, each of which may raise ValueError. -/

/-- Failure modes of the regex-and-float step. -/
inductive ExtractErr where
  /-- `RuntimeError` raised when the regex finds no match; carries the text. -/
  | noMatch (text : String)
  /-- `ValueError` raised by `float()`; carries only the offending group. -/
  | floatError (group : String)
  deriving DecidableEq, Repr

/-- The exception message attached to each failure mode. -/
def ExtractErr.message : ExtractErr → String
  | .noMatch text => "Could not parse coordinates from response: " ++ text
  | .floatError group => "could not convert string to float: " ++ group

/-- The regex-and-float step of `get_coordinates`: search for the pattern,
fail with the text-bearing error on no match, else parse both groups
(group 1 first, as in the source). -/
def extractCoordinates (text : String) : Except ExtractErr (Dec × Dec) :=
  match search text.toList with
  | none => .error (.noMatch text)
  | some (g1, g2) =>
    match parseFloat g1 with
    | none => .error (.floatError (String.mk g1))
    | some lat =>
      match parseFloat g2 with
      | none => .error (.floatError (String.mk g2))
      | some lon => .ok (lat, lon)

/-! ### Spec-side predicates

These follow the words of the claims, for comparison with the code-side
definitions above: a "signed-decimal" (optional minus sign, digits, optional
fractional part) and the presence of an occurrence of the shape
`lat=<signed-decimal>, lon=<signed-decimal>`. -/

/-- Spec wording: an unsigned decimal, digits with an optional fractional
part (`digits+` or `digits+ "." digits+`). -/
def isUnsignedDecimal (cs : List Char) : Bool :=
  let ip := cs.takeWhile Char.isDigit
  match cs.dropWhile Char.isDigit with
  | [] => !ip.isEmpty
  | '.' :: frac => !ip.isEmpty && !frac.isEmpty && frac.all Char.isDigit
  | _ => false

/-- Spec wording: a signed decimal, optionally carrying a leading minus. -/
def isSignedDecimal (cs : List Char) : Bool :=
  match cs with
  | '-' :: rest => isUnsignedDecimal rest
  | _ => isUnsignedDecimal cs

/-- Does an occurrence of `lat=<signed-decimal>, lon=<signed-decimal>` start
at the head of `cs`? -/
def occurrenceAt (cs : List Char) : Bool :=
  if "lat=".toList.isPrefixOf cs then
    let rest := cs.drop 4
    (List.range (rest.length + 1)).any fun l =>
      isSignedDecimal (rest.take l) &&
      (let r2 := rest.drop l
       ", lon=".toList.isPrefixOf r2 &&
       (let r3 := r2.drop 6
        (List.range (r3.length + 1)).any fun m => isSignedDecimal (r3.take m)))
  else false

/-- The text contains an occurrence of
`lat=<signed-decimal>, lon=<signed-decimal>` somewhere. -/
def containsOccurrence (cs : List Char) : Bool :=
  (List.range cs.length).any fun i => occurrenceAt (cs.drop i)

/-- ASCII lowercasing of one character (Python `str.lower` on ASCII). -/
def lowerChar (c : Char) : Char :=
  if 'A' ≤ c ∧ c ≤ 'Z' then Char.ofNat (c.toNat + 32) else c

/-- ASCII lowercasing of a string, used only to state which inputs match a
substring "up to letter case". -/
def strLower (s : String) : String :=
  String.mk (s.toList.map lowerChar)

/-! ### Session lifecycle and orchestration

The network side (the `mcp` library's transport and session) is an external
collaborator.  We model one server, with its transport, as an abstract
behavior: whether the transport handshake and the session initialization
succeed, the tool names `list_tools` reports, and whether/what the single
`call_tool` of each flow returns.  Every externally visible resource or call
action is recorded as an event, so resource-release and ordering claims are
statements about the emitted trace. -/

/-- Observable behavior of one server (with its transport), as the client
sees it. Fields in order: `connectOk`, `initOk`, `tools`, `callOk`,
`content`. -/
structure ServerBehavior where
  /-- `streamable_http_client(uri).__aenter__()` succeeds. -/
  connectOk : Bool
  /-- `session.initialize()` (after `ClientSession(...).__aenter__()`) succeeds. -/
  initOk : Bool
  /-- tool names reported by `session.list_tools()`, in server order. -/
  tools : List String
  /-- the flow's single `session.call_tool(...)` succeeds. -/
  callOk : Bool
  /-- `result.content` of that call, as the text of each content item. -/
  content : List String
  deriving DecidableEq, Repr

/-- Arguments of a `call_tool` invocation. -/
inductive ToolArgs where
  /-- `{"query": place_name}` (geocoding call). -/
  | query (q : String)
  /-- `{"latitude": latitude, "longitude": longitude}` (weather call). -/
  | coords (latitude longitude : Dec)
  deriving DecidableEq, Repr

/-- Externally visible actions, tagged with the server URI they concern. -/
inductive Ev where
  | connectAttempt (uri : String)
  | transportOpened (uri : String)
  | sessionOpened (uri : String)
  | toolCall (uri : String) (tool : String) (args : ToolArgs)
  | sessionClosed (uri : String)
  | transportClosed (uri : String)
  deriving DecidableEq, Repr

/-- The server URI an event concerns. -/
def Ev.uri : Ev → String
  | .connectAttempt u | .transportOpened u | .sessionOpened u
  | .toolCall u _ _ | .sessionClosed u | .transportClosed u => u

/-- Is the event a connection attempt? -/
def Ev.isConnectAttempt : Ev → Bool
  | .connectAttempt _ => true
  | _ => false

/-- Is the event a resource release (session or transport close)? -/
def Ev.isRelease : Ev → Bool
  | .sessionClosed _ | .transportClosed _ => true
  | _ => false

/-- Failure modes of the client. -/
inductive Err where
  /-- `ValueError` of `create_session` on a URI scheme other than http/https. -/
  | badScheme (scheme : String)
  /-- transport/handshake failure inside `streamable_http_client.__aenter__`. -/
  | connectError
  /-- failure of `session.initialize()`. -/
  | initError
  /-- `RuntimeError` when no listed tool name contains the required substring. -/
  | toolNotFound (msg : String)
  /-- failure of the remote `call_tool` itself. -/
  | callError
  /-- `IndexError` from `result.content[0]` on an empty content list. -/
  | indexError
  /-- a failure of the regex-and-float step. -/
  | parse (e : ExtractErr)
  deriving DecidableEq, Repr

/-- Characters Python's `urllib.parse` allows in a scheme. -/
def isSchemeChar (c : Char) : Bool :=
  c.isAlphanum || c == '+' || c == '-' || c == '.'

/-- Scheme extraction of `urllib.parse.urlparse`: the part before the first
`':'`, lowercased, provided the colon is not the first character, the first
character is an ASCII letter, and every character before the colon is a
scheme character; otherwise the empty scheme. -/
def urlScheme (uri : String) : String :=
  let cs := uri.toList
  let before := cs.takeWhile (fun c => c ≠ ':')
  if before.length < cs.length && !before.isEmpty &&
      (match cs with | c :: _ => c.isAlpha | [] => false) &&
      before.all isSchemeChar then
    String.mk (before.map lowerChar)
  else ""

/-- `create_session` (lines 17-38): validate the scheme before anything
else, then open the transport, enter the session and initialize it.  The
source installs no cleanup inside this function, so a failure of
`initialize()` leaves both the session and the transport open (no release
events are emitted on that path). -/
def createSession (uri : String) (b : ServerBehavior) : Except Err Unit × List Ev :=
  if urlScheme uri = "http" ∨ urlScheme uri = "https" then
    if b.connectOk then
      if b.initOk then
        (.ok (), [.connectAttempt uri, .transportOpened uri, .sessionOpened uri])
      else
        (.error .initError, [.connectAttempt uri, .transportOpened uri, .sessionOpened uri])
    else (.error .connectError, [.connectAttempt uri])
  else (.error (.badScheme (urlScheme uri)), [])

/-- `get_coordinates` (lines 41-82): create a session (outside the
`try`), then inside `try`: list tools, select the first name containing
`"forward_geocode"` (RuntimeError if none), call it with
`{"query": place}`, read `result.content[0].text` (IndexError on empty
content) and run the regex-and-float step on it.  The `finally` closes the
session and then the transport on every path through the body. -/
def getCoordinates (place uri : String) (geo : ServerBehavior) :
    Except Err (Dec × Dec) × List Ev :=
  match createSession uri geo with
  | (.error e, evs) => (.error e, evs)
  | (.ok _, evs) =>
    let body : Except Err (Dec × Dec) × List Ev :=
      match findToolName "forward_geocode" geo.tools with
      | none =>
        (.error (.toolNotFound "forward_geocode tool not found on lat-long-mcp-server"), [])
      | some toolName =>
        if geo.callOk then
          match geo.content with
          | [] => (.error .indexError, [.toolCall uri toolName (.query place)])
          | text :: _ =>
            ((extractCoordinates text).mapError Err.parse,
             [.toolCall uri toolName (.query place)])
        else (.error .callError, [.toolCall uri toolName (.query place)])
    (body.1, evs ++ body.2 ++ [.sessionClosed uri, .transportClosed uri])

/-- `get_forecast` (lines 85-116): create a session, then inside `try`:
list tools, select the first name containing `"get_forecast"` (RuntimeError
if none), call it with `{"latitude": lat, "longitude": lon}` and return
`result.content[0].text` verbatim (IndexError on empty content); the
`finally` closes the session and then the transport. -/
def getForecast (lat lon : Dec) (uri : String) (w : ServerBehavior) :
    Except Err String × List Ev :=
  match createSession uri w with
  | (.error e, evs) => (.error e, evs)
  | (.ok _, evs) =>
    let body : Except Err String × List Ev :=
      match findToolName "get_forecast" w.tools with
      | none =>
        (.error (.toolNotFound "get_forecast tool not found on weather-mcp-server"), [])
      | some toolName =>
        if w.callOk then
          match w.content with
          | [] => (.error .indexError, [.toolCall uri toolName (.coords lat lon)])
          | text :: _ => (.ok text, [.toolCall uri toolName (.coords lat lon)])
        else (.error .callError, [.toolCall uri toolName (.coords lat lon)])
    (body.1, evs ++ body.2 ++ [.sessionClosed uri, .transportClosed uri])

/-- The `try` block of `main` (lines 156-163): `get_coordinates`, then —
only if it returned — `get_forecast` on the extracted pair; any exception
propagates. -/
def mainFlow (place geoUri weatherUri : String) (geo weather : ServerBehavior) :
    Except Err String × List Ev :=
  match getCoordinates place geoUri geo with
  | (.error e, evs) => (.error e, evs)
  | (.ok (lat, lon), evs) =>
    let r := getForecast lat lon weatherUri weather
    (r.1, evs ++ r.2)

/-- Modelled from the spec: the single-server flow driver, whose source file
is not under src/.  Spec 4.5: acquire one session (4.1), list tools, select
via 4.2 with substring `get_forecast`, invoke with a fixed coordinate pair
and print the raw result; if selection fails, the flow terminates gracefully
(reported, not raised) — modelled as a successful `none` result instead of
an error. -/
def singleFlow (lat lon : Dec) (uri : String) (b : ServerBehavior) :
    Except Err (Option String) × List Ev :=
  match createSession uri b with
  | (.error e, evs) => (.error e, evs)
  | (.ok _, evs) =>
    let body : Except Err (Option String) × List Ev :=
      match findToolName "get_forecast" b.tools with
      | none => (.ok none, [])
      | some toolName =>
        if b.callOk then
          match b.content with
          | [] => (.error .indexError, [.toolCall uri toolName (.coords lat lon)])
          | text :: _ => (.ok (some text), [.toolCall uri toolName (.coords lat lon)])
        else (.error .callError, [.toolCall uri toolName (.coords lat lon)])
    (body.1, evs ++ body.2 ++ [.sessionClosed uri, .transportClosed uri])

/-! ### Helper lemmas -/

theorem matchHere_nil : matchHere [] = none := rfl

/-- `search` returns the match at the leftmost matching position. -/
theorem search_eq_of_leftmost (i : Nat) : ∀ (cs : List Char) (r : List Char × List Char),
    matchHere (cs.drop i) = some r → (∀ j, j < i → matchHere (cs.drop j) = none) →
    search cs = some r := by
  induction i with
  | zero =>
    intro cs r hi _
    cases cs with
    | nil => rw [List.drop_nil, matchHere_nil] at hi; cases hi
    | cons c tl =>
      rw [List.drop_zero] at hi
      simp [search, hi]
  | succ i ih =>
    intro cs r hi hlt
    cases cs with
    | nil => rw [List.drop_nil, matchHere_nil] at hi; cases hi
    | cons c tl =>
      have h0 : matchHere (c :: tl) = none := by
        have := hlt 0 (Nat.succ_pos i)
        rwa [List.drop_zero] at this
      simp only [search, h0]
      exact ih tl r (by simpa using hi)
        (fun j hj => by simpa using hlt (j + 1) (Nat.succ_lt_succ hj))

theorem isPrefixOf_self (l : List Char) : l.isPrefixOf l = true := by
  induction l with
  | nil => rfl
  | cons c tl ih => simp [List.isPrefixOf, ih]

/-- A string occurs as a substring of anything it is appended to. -/
theorem listContains_append_self (a sub : List Char) :
    listContains sub (a ++ sub) = true := by
  induction a with
  | nil =>
    cases sub with
    | nil => rfl
    | cons c tl => simp [listContains, isPrefixOf_self]
  | cons c tl ih => simp [listContains, ih]

theorem findToolName_eq_none (required : String) : ∀ tools : List String,
    (∀ t ∈ tools, pyIn required t = false) → findToolName required tools = none := by
  intro tools
  induction tools with
  | nil => intro _; rfl
  | cons t ts ih =>
    intro h
    have ht := h t (List.mem_cons_self t ts)
    simp only [findToolName, ht]
    exact ih fun t' ht' => h t' (List.mem_cons_of_mem t ht')

theorem all_not_contains_of_findToolName_none (required : String) :
    ∀ tools : List String, findToolName required tools = none →
    ∀ t ∈ tools, pyIn required t = false := by
  intro tools
  induction tools with
  | nil => intro _ t ht; cases ht
  | cons t ts ih =>
    intro h t' ht'
    cases hpt : pyIn required t with
    | true => simp [findToolName, hpt] at h
    | false =>
      have h' : findToolName required ts = none := by
        simpa [findToolName, hpt] using h
      rcases List.mem_cons.mp ht' with rfl | hmem
      · exact hpt
      · exact ih h' t' hmem

theorem findToolName_eq_some (required : String) :
    ∀ (tools : List String) (n : String), findToolName required tools = some n →
    ∃ pre post, tools = pre ++ n :: post ∧ pyIn required n = true ∧
      ∀ t ∈ pre, pyIn required t = false := by
  intro tools
  induction tools with
  | nil => intro n h; cases h
  | cons t ts ih =>
    intro n h
    cases hpt : pyIn required t with
    | true =>
      have ht : t = n := by
        have := h
        simp only [findToolName, hpt, if_true] at this
        exact Option.some.inj this
      subst ht
      exact ⟨[], ts, rfl, hpt, by intro t' ht'; cases ht'⟩
    | false =>
      have h' : findToolName required ts = some n := by
        simpa [findToolName, hpt] using h
      obtain ⟨pre, post, heq, hn, hpre⟩ := ih n h'
      refine ⟨t :: pre, post, by simp [heq], hn, ?_⟩
      intro t' ht'
      rcases List.mem_cons.mp ht' with rfl | hmem
      · exact hpt
      · exact hpre t' hmem

theorem createSession_events_uri (uri : String) (b : ServerBehavior) :
    ∀ ev ∈ (createSession uri b).2, ev.uri = uri := by
  intro ev hev
  unfold createSession at hev
  split_ifs at hev <;>
    simp only [List.mem_cons, List.not_mem_nil, or_false] at hev <;>
    rcases hev with rfl | rfl | rfl <;> rfl

theorem getCoordinates_events_uri (place uri : String) (g : ServerBehavior) :
    ∀ ev ∈ (getCoordinates place uri g).2, ev.uri = uri := by
  intro ev hev
  unfold getCoordinates at hev
  rcases hcs : createSession uri g with ⟨res, evs⟩
  have hevs : ∀ e ∈ evs, Ev.uri e = uri := by
    intro e he
    exact createSession_events_uri uri g e (by rw [hcs]; exact he)
  rw [hcs] at hev
  cases res with
  | error e => exact hevs ev hev
  | ok u =>
    simp only [List.mem_append] at hev
    rcases hev with (hev | hev) | hev
    · exact hevs ev hev
    · rcases hft : findToolName "forward_geocode" g.tools with _ | tn <;>
        rw [hft] at hev
      · cases hev
      · split_ifs at hev
        · rcases hc : g.content with _ | ⟨t0, rest⟩ <;> rw [hc] at hev <;>
            simp only [List.mem_cons, List.not_mem_nil, or_false] at hev <;>
            (rcases hev with rfl; rfl)
        · simp only [List.mem_cons, List.not_mem_nil, or_false] at hev
          rcases hev with rfl; rfl
    · simp only [List.mem_cons, List.not_mem_nil, or_false] at hev
      rcases hev with rfl | rfl <;> rfl

theorem createSession_connectAttempts (uri : String) (b : ServerBehavior) :
    (createSession uri b).2.countP Ev.isConnectAttempt ≤ 1 := by
  unfold createSession
  split_ifs <;> simp [List.countP_cons, Ev.isConnectAttempt]

theorem getCoordinates_connectAttempts (place uri : String) (g : ServerBehavior) :
    (getCoordinates place uri g).2.countP Ev.isConnectAttempt ≤ 1 := by
  unfold getCoordinates
  rcases hcs : createSession uri g with ⟨res, evs⟩
  have hevs : evs.countP Ev.isConnectAttempt ≤ 1 := by
    have := createSession_connectAttempts uri g
    rwa [hcs] at this
  cases res with
  | error e => exact hevs
  | ok u =>
    simp only [List.countP_append]
    have hbody :
        (match findToolName "forward_geocode" g.tools with
          | none =>
            ((.error (.toolNotFound "forward_geocode tool not found on lat-long-mcp-server") :
                Except Err (Dec × Dec)), ([] : List Ev))
          | some toolName =>
            if g.callOk then
              match g.content with
              | [] => (.error .indexError, [.toolCall uri toolName (.query place)])
              | text :: _ =>
                ((extractCoordinates text).mapError Err.parse,
                 [.toolCall uri toolName (.query place)])
            else (.error .callError, [.toolCall uri toolName (.query place)])).2.countP
          Ev.isConnectAttempt = 0 := by
      rcases hft : findToolName "forward_geocode" g.tools with _ | tn
      · simp
      · simp only []
        split_ifs <;>
          rcases hc : g.content with _ | ⟨t0, rest⟩ <;>
          simp [List.countP_cons, Ev.isConnectAttempt]
    rw [hbody]
    simp [List.countP_cons, Ev.isConnectAttempt]
    omega

/-- A geocoding failure propagates through `main` unchanged, with no further
events. -/
theorem mainFlow_geo_error (place gu wu : String) (g w : ServerBehavior) (e : Err)
    (h : (getCoordinates place gu g).1 = .error e) :
    mainFlow place gu wu g w = (.error e, (getCoordinates place gu g).2) := by
  unfold mainFlow
  rcases hgc : getCoordinates place gu g with ⟨res, evs⟩
  rw [hgc] at h
  cases res with
  | error e' =>
    have : e' = e := by simpa using h
    subst this
    simp [hgc]
  | ok p => simp at h

theorem createSession_ok (uri : String) (b : ServerBehavior)
    (hscheme : urlScheme uri = "http" ∨ urlScheme uri = "https")
    (hc : b.connectOk = true) (hi : b.initOk = true) :
    createSession uri b =
      (.ok (), [.connectAttempt uri, .transportOpened uri, .sessionOpened uri]) := by
  unfold createSession
  rw [if_pos hscheme, hc, hi]
  simp

/-- Evaluation of `get_coordinates` once the session is up, the tool found
and the call answered: the result is the regex-and-float step on the first
content text, and the trace opens then closes both resources around the
call. -/
theorem getCoordinates_run (place gu : String) (g : ServerBehavior)
    (tn text : String) (rest : List String)
    (hscheme : urlScheme gu = "http" ∨ urlScheme gu = "https")
    (hc : g.connectOk = true) (hi : g.initOk = true)
    (htool : findToolName "forward_geocode" g.tools = some tn)
    (hcall : g.callOk = true) (hcontent : g.content = text :: rest) :
    getCoordinates place gu g =
      ((extractCoordinates text).mapError Err.parse,
       [.connectAttempt gu, .transportOpened gu, .sessionOpened gu,
        .toolCall gu tn (.query place),
        .sessionClosed gu, .transportClosed gu]) := by
  unfold getCoordinates
  rw [createSession_ok gu g hscheme hc hi]
  simp [htool, hcall, hcontent]

/-- Evaluation of `get_forecast` in the same situation: the result is the
first content text verbatim. -/
theorem getForecast_run (lat lon : Dec) (wu : String) (w : ServerBehavior)
    (tn text : String) (rest : List String)
    (hscheme : urlScheme wu = "http" ∨ urlScheme wu = "https")
    (hc : w.connectOk = true) (hi : w.initOk = true)
    (htool : findToolName "get_forecast" w.tools = some tn)
    (hcall : w.callOk = true) (hcontent : w.content = text :: rest) :
    getForecast lat lon wu w =
      (.ok text,
       [.connectAttempt wu, .transportOpened wu, .sessionOpened wu,
        .toolCall wu tn (.coords lat lon),
        .sessionClosed wu, .transportClosed wu]) := by
  unfold getForecast
  rw [createSession_ok wu w hscheme hc hi]
  simp [htool, hcall, hcontent]

/-- When geocoding succeeds, `main` runs the forecast step on exactly the
extracted pair and concatenates the two traces. -/
theorem mainFlow_geo_ok (place gu wu : String) (g w : ServerBehavior) (lat lon : Dec)
    (h : (getCoordinates place gu g).1 = .ok (lat, lon)) :
    mainFlow place gu wu g w =
      ((getForecast lat lon wu w).1,
       (getCoordinates place gu g).2 ++ (getForecast lat lon wu w).2) := by
  unfold mainFlow
  rcases hgc : getCoordinates place gu g with ⟨res, evs⟩
  rw [hgc] at h
  cases res with
  | error e => simp at h
  | ok p =>
    have hp : p = (lat, lon) := by simpa using h
    subst hp
    simp [hgc]

/-! ### Claim theorems -/

/-- C1 (counterexample): the input `"lat=., lon=. lat=1.5, lon=2.5"` contains
an occurrence of the shape `lat=<signed-decimal>, lon=<signed-decimal>`
(namely `lat=1.5, lon=2.5`), yet extraction does not return that pair: the
regex's leftmost match is `lat=., lon=.`, whose group `"."` makes `float()`
raise, so extraction fails instead. -/
theorem c1_counterexample :
    containsOccurrence ("lat=., lon=. lat=1.5, lon=2.5").toList = true ∧
    extractCoordinates "lat=., lon=. lat=1.5, lon=2.5" = .error (.floatError ".") :=
  ⟨by decide, by decide⟩

/-- C1 (amended): extraction is driven by the leftmost match of the regex
`lat=([-\d.]+), lon=([-\d.]+)`; whenever both captured groups of that
leftmost match parse as floats (optional minus sign, digits, at most one
dot), extraction returns exactly their values, including negative ones, and
every later occurrence in the text is ignored. -/
theorem c1_extraction_leftmost_match (text : String) (i : Nat)
    (g1 g2 : List Char) (lat lon : Dec)
    (hmatch : matchHere (text.toList.drop i) = some (g1, g2))
    (hfirst : ∀ j, j < i → matchHere (text.toList.drop j) = none)
    (hlat : parseFloat g1 = some lat) (hlon : parseFloat g2 = some lon) :
    extractCoordinates text = .ok (lat, lon) := by
  unfold extractCoordinates
  rw [search_eq_of_leftmost i text.toList (g1, g2) hmatch hfirst]
  simp [hlat, hlon]

/-- C1 witness: on a two-candidate input only the first pair is returned,
negative value in the second candidate notwithstanding. -/
theorem c1_witness :
    extractCoordinates "A -> lat=48.8566, lon=2.3522 B -> lat=33.6615, lon=-95.5007" =
      .ok (⟨488566, 4⟩, ⟨23522, 4⟩) :=
  c1_extraction_leftmost_match _ 5 ("48.8566").toList ("2.3522").toList
    ⟨488566, 4⟩ ⟨23522, 4⟩ (by decide) (by decide) (by decide) (by decide)

/-- C2: the tool-selection step signals not-found exactly when no listed
name contains the substring, and otherwise returns the first name (in list
order) that contains it — a plain order-sensitive linear scan with
first-match tie-breaking. -/
theorem c2_first_match_selection (required : String) (tools : List String) :
    (findToolName required tools = none ↔ ∀ t ∈ tools, pyIn required t = false) ∧
    ∀ n, findToolName required tools = some n →
      pyIn required n = true ∧
      ∃ pre post, tools = pre ++ n :: post ∧ ∀ t ∈ pre, pyIn required t = false := by
  refine ⟨⟨all_not_contains_of_findToolName_none required tools,
    findToolName_eq_none required tools⟩, ?_⟩
  intro n h
  obtain ⟨pre, post, heq, hn, hpre⟩ := findToolName_eq_some required tools n h
  exact ⟨hn, pre, post, heq, hpre⟩

/-- C2 witness: with no name containing the substring, selection reports
not-found (derived from the characterization at a concrete list). -/
theorem c2_witness :
    findToolName "get_forecast" ["save_raw_forecast", "other_tool"] = none :=
  (c2_first_match_selection "get_forecast" ["save_raw_forecast", "other_tool"]).1.mpr
    (by decide)

/-- C3 (counterexample): `"lat=., lon=."` contains no occurrence of the
shape `lat=<signed-decimal>, lon=<signed-decimal>`, yet extraction fails
with the float-conversion error, whose message does not include the original
text — refuting that every no-occurrence input fails with a parse error
carrying the text. -/
theorem c3_counterexample :
    containsOccurrence ("lat=., lon=.").toList = false ∧
    extractCoordinates "lat=., lon=." = .error (.floatError ".") ∧
    pyIn "lat=., lon=." (ExtractErr.message (.floatError ".")) = false :=
  ⟨by decide, by decide, by decide⟩

/-- C3 (amended): whenever the regex finds no match at all, extraction fails
with the parse error whose message includes the original text — never a
default or zero pair — and a geocoding reply with such a first text item
makes the whole dual-server flow fail without ever touching the weather
server. -/
theorem c3_no_match_failure (place gu wu text : String) (rest : List String)
    (g w : ServerBehavior) (tn : String)
    (hns : search text.toList = none)
    (hscheme : urlScheme gu = "http" ∨ urlScheme gu = "https")
    (hc : g.connectOk = true) (hi : g.initOk = true)
    (htool : findToolName "forward_geocode" g.tools = some tn)
    (hcall : g.callOk = true) (hcontent : g.content = text :: rest)
    (hne : gu ≠ wu) :
    extractCoordinates text = .error (.noMatch text) ∧
    pyIn text (ExtractErr.message (.noMatch text)) = true ∧
    (mainFlow place gu wu g w).1 = .error (.parse (.noMatch text)) ∧
    ∀ ev ∈ (mainFlow place gu wu g w).2, ev.uri ≠ wu := by
  have hex : extractCoordinates text = .error (.noMatch text) := by
    unfold extractCoordinates
    rw [hns]
  have hgc := getCoordinates_run place gu g tn text rest hscheme hc hi htool hcall hcontent
  have hfail : (getCoordinates place gu g).1 = .error (.parse (.noMatch text)) := by
    rw [hgc, hex]; rfl
  have hm := mainFlow_geo_error place gu wu g w _ hfail
  refine ⟨hex, ?_, by rw [hm], ?_⟩
  · unfold pyIn
    have hdata : (ExtractErr.message (.noMatch text)).toList =
        ("Could not parse coordinates from response: ").toList ++ text.toList := rfl
    rw [hdata]
    exact listContains_append_self _ _
  · intro ev hev
    rw [hm] at hev
    have := getCoordinates_events_uri place gu g ev hev
    rw [this]
    exact hne

/-- C3 witness: the test suite's `"No location found"` reply. -/
theorem c3_witness :
    extractCoordinates "No location found" = .error (.noMatch "No location found") ∧
    pyIn "No location found"
      (ExtractErr.message (.noMatch "No location found")) = true ∧
    (mainFlow "Paris" "http://127.0.0.1:8001/mcp" "http://127.0.0.1:8000/mcp"
        (⟨true, true, ["forward_geocode"], true, ["No location found"]⟩ : ServerBehavior)
        (⟨true, true, ["get_forecast"], true, ["sunny"]⟩ : ServerBehavior)).1 =
      .error (.parse (.noMatch "No location found")) ∧
    ∀ ev ∈ (mainFlow "Paris" "http://127.0.0.1:8001/mcp" "http://127.0.0.1:8000/mcp"
        (⟨true, true, ["forward_geocode"], true, ["No location found"]⟩ : ServerBehavior)
        (⟨true, true, ["get_forecast"], true, ["sunny"]⟩ : ServerBehavior)).2,
      ev.uri ≠ "http://127.0.0.1:8000/mcp" :=
  c3_no_match_failure "Paris" "http://127.0.0.1:8001/mcp" "http://127.0.0.1:8000/mcp"
    "No location found" [] _ _ "forward_geocode" (by decide) (by decide) (by decide)
    (by decide) (by decide) (by decide) (by decide) (by decide)

/-- C4: a geocoding-step failure of any kind propagates unchanged through
`main`; the trace contains no event concerning the weather server — its
session is never acquired, no connection to it is ever attempted — and there
is at most one connection attempt overall (no retries). -/
theorem c4_geo_failure_blocks_weather (place gu wu : String) (g w : ServerBehavior)
    (e : Err) (hfail : (getCoordinates place gu g).1 = .error e) (hne : gu ≠ wu) :
    (mainFlow place gu wu g w).1 = .error e ∧
    (∀ ev ∈ (mainFlow place gu wu g w).2, ev.uri ≠ wu) ∧
    (mainFlow place gu wu g w).2.countP Ev.isConnectAttempt ≤ 1 := by
  have hm := mainFlow_geo_error place gu wu g w e hfail
  refine ⟨by rw [hm], ?_, ?_⟩
  · intro ev hev
    rw [hm] at hev
    have := getCoordinates_events_uri place gu g ev hev
    rw [this]
    exact hne
  · rw [hm]
    exact getCoordinates_connectAttempts place gu g

/-- C4 witness: a geocoding server whose tool list has no name containing
`forward_geocode` halts the flow with no weather-server event at all. -/
theorem c4_witness :
    (mainFlow "Paris" "http://127.0.0.1:8001/mcp" "http://127.0.0.1:8000/mcp"
        (⟨true, true, ["reverse_geocode"], true, []⟩ : ServerBehavior)
        (⟨true, true, ["get_forecast"], true, ["sunny"]⟩ : ServerBehavior)).1 =
      .error (.toolNotFound "forward_geocode tool not found on lat-long-mcp-server") ∧
    ((mainFlow "Paris" "http://127.0.0.1:8001/mcp" "http://127.0.0.1:8000/mcp"
        (⟨true, true, ["reverse_geocode"], true, []⟩ : ServerBehavior)
        (⟨true, true, ["get_forecast"], true, ["sunny"]⟩ : ServerBehavior)).2.any
      fun ev => ev.uri == "http://127.0.0.1:8000/mcp") = false := by
  obtain ⟨h1, h2, _⟩ := c4_geo_failure_blocks_weather "Paris"
    "http://127.0.0.1:8001/mcp" "http://127.0.0.1:8000/mcp"
    (⟨true, true, ["reverse_geocode"], true, []⟩ : ServerBehavior)
    (⟨true, true, ["get_forecast"], true, ["sunny"]⟩ : ServerBehavior)
    (.toolNotFound "forward_geocode tool not found on lat-long-mcp-server")
    (by decide) (by decide)
  refine ⟨h1, ?_⟩
  rw [List.any_eq_false]
  intro ev hev
  simpa using h2 ev hev

/-- C5: on the failing input (transport connects, `initialize()` fails),
`get_coordinates` propagates the initialization error while the trace shows
the transport and the session opened and neither released — `create_session`
installs no cleanup, and the caller's try/finally begins only after it
returns — contradicting the claim that both resources are released on every
exit path including failures during session initialization. -/
theorem c5_init_failure_leaks_resources :
    getCoordinates "Paris" "http://127.0.0.1:8001/mcp"
        (⟨true, false, ["forward_geocode"], true, []⟩ : ServerBehavior) =
      (.error .initError,
       [.connectAttempt "http://127.0.0.1:8001/mcp",
        .transportOpened "http://127.0.0.1:8001/mcp",
        .sessionOpened "http://127.0.0.1:8001/mcp"]) ∧
    ((getCoordinates "Paris" "http://127.0.0.1:8001/mcp"
        (⟨true, false, ["forward_geocode"], true, []⟩ : ServerBehavior)).2.any
      Ev.isRelease) = false :=
  ⟨by decide, by decide⟩

/-- C6: `create_session` accepts a URI exactly when its scheme (as
urlparse reports it) is http or https; on any other scheme it fails with the
configuration error before any connection attempt (empty trace), and on an
accepted scheme it never raises the scheme error and its first action is the
connection attempt. -/
theorem c6_scheme_validation (uri : String) (b : ServerBehavior) :
    (¬(urlScheme uri = "http" ∨ urlScheme uri = "https") →
      createSession uri b = (.error (.badScheme (urlScheme uri)), [])) ∧
    ((urlScheme uri = "http" ∨ urlScheme uri = "https") →
      (∀ s, (createSession uri b).1 ≠ .error (.badScheme s)) ∧
      (createSession uri b).2.head? = some (.connectAttempt uri)) := by
  constructor
  · intro h
    unfold createSession
    rw [if_neg h]
  · intro h
    constructor
    · intro s
      unfold createSession
      rw [if_pos h]
      split_ifs <;> simp
    · unfold createSession
      rw [if_pos h]
      split_ifs <;> rfl

/-- C6 witness: an ftp URI is rejected with no events; an http URI leads
straight to a connection attempt. -/
theorem c6_witness :
    createSession "ftp://example.com:8000/mcp"
        (⟨true, true, [], true, []⟩ : ServerBehavior) =
      (.error (.badScheme "ftp"), []) ∧
    (createSession "http://127.0.0.1:8000/mcp"
        (⟨true, true, [], true, []⟩ : ServerBehavior)).2.head? =
      some (.connectAttempt "http://127.0.0.1:8000/mcp") := by
  constructor
  · have h := (c6_scheme_validation "ftp://example.com:8000/mcp"
      (⟨true, true, [], true, []⟩ : ServerBehavior)).1 (by decide)
    have hs : urlScheme "ftp://example.com:8000/mcp" = "ftp" := by decide
    rw [hs] at h
    exact h
  · exact ((c6_scheme_validation "http://127.0.0.1:8000/mcp"
      (⟨true, true, [], true, []⟩ : ServerBehavior)).2 (by decide)).2

/-- C7: in a successful run, the weather tool is invoked with
`{latitude: lat, longitude: lon}` where `(lat, lon)` is exactly the pair the
geocoding step extracted, and the flow's final result is the first text item
of the weather reply verbatim (later content items ignored). -/
theorem c7_forecast_args_and_result (place gu wu : String) (g w : ServerBehavior)
    (lat lon : Dec) (tn text : String) (rest : List String)
    (hgeo : (getCoordinates place gu g).1 = .ok (lat, lon))
    (hscheme : urlScheme wu = "http" ∨ urlScheme wu = "https")
    (hcw : w.connectOk = true) (hiw : w.initOk = true)
    (htool : findToolName "get_forecast" w.tools = some tn)
    (hcall : w.callOk = true) (hcontent : w.content = text :: rest) :
    (mainFlow place gu wu g w).1 = .ok text ∧
    Ev.toolCall wu tn (.coords lat lon) ∈ (mainFlow place gu wu g w).2 := by
  have hfr := getForecast_run lat lon wu w tn text rest hscheme hcw hiw htool hcall hcontent
  have hm := mainFlow_geo_ok place gu wu g w lat lon hgeo
  rw [hm, hfr]
  simp

/-- C7 witness: the spec's Paris scenario — geocode reply
`"1. Paris (Île-de-France, France) -> lat=48.8566, lon=2.3522"` leads to a
forecast call with latitude 48.8566 and longitude 2.3522, and the weather
reply's first text item is returned; a second content item is ignored. -/
theorem c7_witness :
    (mainFlow "Paris" "http://127.0.0.1:8001/mcp" "http://127.0.0.1:8000/mcp"
        (⟨true, true, ["forward_geocode"], true,
          ["1. Paris (Île-de-France, France) -> lat=48.8566, lon=2.3522"]⟩ : ServerBehavior)
        (⟨true, true, ["get_forecast"], true,
          ["Temperature: 10C", "ignored second item"]⟩ : ServerBehavior)).1 =
      .ok "Temperature: 10C" ∧
    Ev.toolCall "http://127.0.0.1:8000/mcp" "get_forecast"
        (.coords ⟨488566, 4⟩ ⟨23522, 4⟩) ∈
      (mainFlow "Paris" "http://127.0.0.1:8001/mcp" "http://127.0.0.1:8000/mcp"
        (⟨true, true, ["forward_geocode"], true,
          ["1. Paris (Île-de-France, France) -> lat=48.8566, lon=2.3522"]⟩ : ServerBehavior)
        (⟨true, true, ["get_forecast"], true,
          ["Temperature: 10C", "ignored second item"]⟩ : ServerBehavior)).2 :=
  c7_forecast_args_and_result "Paris" "http://127.0.0.1:8001/mcp"
    "http://127.0.0.1:8000/mcp" _ _ ⟨488566, 4⟩ ⟨23522, 4⟩ "get_forecast"
    "Temperature: 10C" ["ignored second item"]
    (by decide) (by decide) (by decide) (by decide) (by decide) (by decide) (by decide)

/-- C8: in the single-server flow, a tool list with no name containing the
target substring ends the flow gracefully (a reported early return, not an
error), whereas the dual-server flow's forecast step treats the same
condition as a fatal tool-not-found error. -/
theorem c8_single_flow_graceful (lat lon : Dec) (uri : String) (b : ServerBehavior)
    (hscheme : urlScheme uri = "http" ∨ urlScheme uri = "https")
    (hc : b.connectOk = true) (hi : b.initOk = true)
    (hnone : findToolName "get_forecast" b.tools = none) :
    (singleFlow lat lon uri b).1 = .ok none ∧
    (getForecast lat lon uri b).1 =
      .error (.toolNotFound "get_forecast tool not found on weather-mcp-server") := by
  constructor
  · unfold singleFlow
    rw [createSession_ok uri b hscheme hc hi]
    simp [hnone]
  · unfold getForecast
    rw [createSession_ok uri b hscheme hc hi]
    simp [hnone]

/-- C8 witness: a server listing only non-matching tool names. -/
theorem c8_witness :
    (singleFlow ⟨488566, 4⟩ ⟨23522, 4⟩ "http://127.0.0.1:8000/mcp"
        (⟨true, true, ["save_raw_forecast", "other_tool"], true, []⟩ : ServerBehavior)).1 =
      .ok none ∧
    (getForecast ⟨488566, 4⟩ ⟨23522, 4⟩ "http://127.0.0.1:8000/mcp"
        (⟨true, true, ["save_raw_forecast", "other_tool"], true, []⟩ : ServerBehavior)).1 =
      .error (.toolNotFound "get_forecast tool not found on weather-mcp-server") :=
  c8_single_flow_graceful ⟨488566, 4⟩ ⟨23522, 4⟩ "http://127.0.0.1:8000/mcp" _
    (by decide) (by decide) (by decide) (by decide)

/-- C9: with an empty content list in the tool reply, both
`get_coordinates` and `get_forecast` fail with the bare index error from
`result.content[0]` — no descriptive empty-result message, no default. -/
theorem c9_empty_content_index_error (place gu wu : String) (lat lon : Dec)
    (g w : ServerBehavior) (tg tw : String)
    (hsg : urlScheme gu = "http" ∨ urlScheme gu = "https")
    (hcg : g.connectOk = true) (hig : g.initOk = true)
    (htg : findToolName "forward_geocode" g.tools = some tg)
    (hcallg : g.callOk = true) (hcontg : g.content = [])
    (hsw : urlScheme wu = "http" ∨ urlScheme wu = "https")
    (hcw : w.connectOk = true) (hiw : w.initOk = true)
    (htw : findToolName "get_forecast" w.tools = some tw)
    (hcallw : w.callOk = true) (hcontw : w.content = []) :
    (getCoordinates place gu g).1 = .error .indexError ∧
    (getForecast lat lon wu w).1 = .error .indexError := by
  constructor
  · unfold getCoordinates
    rw [createSession_ok gu g hsg hcg hig]
    simp [htg, hcallg, hcontg]
  · unfold getForecast
    rw [createSession_ok wu w hsw hcw hiw]
    simp [htw, hcallw, hcontw]

/-- C9 witness: both flows at servers answering with empty content. -/
theorem c9_witness :
    (getCoordinates "Paris" "http://127.0.0.1:8001/mcp"
        (⟨true, true, ["forward_geocode"], true, []⟩ : ServerBehavior)).1 =
      .error .indexError ∧
    (getForecast ⟨488566, 4⟩ ⟨23522, 4⟩ "http://127.0.0.1:8000/mcp"
        (⟨true, true, ["get_forecast"], true, []⟩ : ServerBehavior)).1 =
      .error .indexError :=
  c9_empty_content_index_error "Paris" "http://127.0.0.1:8001/mcp"
    "http://127.0.0.1:8000/mcp" ⟨488566, 4⟩ ⟨23522, 4⟩ _ _
    "forward_geocode" "get_forecast" (by decide) (by decide) (by decide) (by decide)
    (by decide) (by decide) (by decide) (by decide) (by decide) (by decide)
    (by decide) (by decide)

/-- C10: substring matching in tool selection is case-sensitive: on a tool
list where some name contains the substring only up to letter case and no
name contains it exactly, selection reports not-found. -/
theorem c10_case_sensitive_selection (required : String) (tools : List String)
    (_hcase : ∃ t ∈ tools, pyIn (strLower required) (strLower t) = true)
    (hexact : ∀ t ∈ tools, pyIn required t = false) :
    findToolName required tools = none :=
  findToolName_eq_none required tools hexact

/-- C10 witness: a tool named `Get_Forecast` does not satisfy the substring
`get_forecast`. -/
theorem c10_witness :
    findToolName "get_forecast" ["Get_Forecast", "other_tool"] = none :=
  c10_case_sensitive_selection "get_forecast" ["Get_Forecast", "other_tool"]
    ⟨"Get_Forecast", by decide, by decide⟩ (by decide)

end McpClient
